import Mathlib

/-!
Verification of the course-match solver pages
(`src/pages/4_Course_Match.py` and `src/pages/5_v2_Course_Match.py`).

The two Streamlit pages build a 0/1 integer linear program over course
sections read from a spreadsheet.  We embed the row type, the pairwise
conflict predicate, the grouping strategy, the constraint system (as a
feasibility predicate on 0/1 assignments), and the result-assembly step,
and prove the spec's claims about them.

Numeric cells (`Price`, `Credits`, `Utility`) are modelled as rationals.
-/

namespace CourseMatch

/-- One row of the course table.  Column names follow the spreadsheet:
`Section` is the course name, `SectionID` the key of the decision
variable. -/
structure Row where
  SectionID : String
  Section : String
  Instructor : String
  Days : String
  Time : String
  Term : String
  Price : ℚ
  Credits : ℚ
  Utility : ℚ
deriving Repr, DecidableEq

/-- Python's `set(s)` applied to a string: the set of its characters,
each character being itself a length-one Python string.  Membership tests
such as `'MW' in set(s)` compare a string against these length-one
strings.  Modelled as the list of one-character strings (list membership
is what the source's `in` tests decide; duplicates are irrelevant to
membership). -/
def pyCharSet (s : String) : List String :=
  s.data.map Char.toString

/-- `conflicts` from `4_Course_Match.py`, lines 48-79.
Order of checks is the source's: time slots, then terms (only a
`Full`-vs-quarter mismatch survives), then day membership tests on the
character sets `days_a = set(course_a['Days'])`, `days_b`.  The sequence
of `if ...: return True` tests is rendered as a disjunction. -/
def conflicts (course_a course_b : Row) : Bool :=
  if course_a.Time != course_b.Time then false
  else if course_a.Term != course_b.Term
      && !((course_a.Term == "Full" && ["Q1", "Q2", "Q3", "Q4"].contains course_b.Term)
        || (course_b.Term == "Full" && ["Q1", "Q2", "Q3", "Q4"].contains course_a.Term)) then
    false
  else
    ((pyCharSet course_a.Days).contains "M" && (pyCharSet course_b.Days).contains "M")
      || ((pyCharSet course_a.Days).contains "W" && (pyCharSet course_b.Days).contains "W")
      || ((pyCharSet course_a.Days).contains "MW"
          && ((pyCharSet course_b.Days).contains "M" || (pyCharSet course_b.Days).contains "W"))
      || ((pyCharSet course_b.Days).contains "MW"
          && ((pyCharSet course_a.Days).contains "M" || (pyCharSet course_a.Days).contains "W"))
      || ((pyCharSet course_a.Days).contains "T" && (pyCharSet course_b.Days).contains "T")
      || ((pyCharSet course_a.Days).contains "R" && (pyCharSet course_b.Days).contains "R")
      || ((pyCharSet course_a.Days).contains "TR"
          && ((pyCharSet course_b.Days).contains "T" || (pyCharSet course_b.Days).contains "R"))
      || ((pyCharSet course_b.Days).contains "TR"
          && ((pyCharSet course_a.Days).contains "T" || (pyCharSet course_a.Days).contains "R"))

/-- `get_group_id` from `5_v2_Course_Match.py`, lines 64-90: time slot,
then `Full` or the quarter code, then each of the day letters `M`, `W`,
`T`, `R` present in `Days` (`'M' in row['Days']` is a substring test; for
a single letter that is character membership), joined with `_`. -/
def get_group_id (row : Row) : String :=
  String.intercalate "_"
    ([row.Time]
      ++ (if row.Term == "Full" then ["Full"] else [row.Term])
      ++ (if row.Days.data.contains 'M' then ["M"] else [])
      ++ (if row.Days.data.contains 'W' then ["W"] else [])
      ++ (if row.Days.data.contains 'T' then ["T"] else [])
      ++ (if row.Days.data.contains 'R' then ["R"] else []))

/-- `budget = 4400 if student_year == "1st Year" else 5500`
(`4_Course_Match.py` line 42). -/
def budgetOf (student_year : String) : ℚ :=
  if student_year == "1st Year" then 4400 else 5500

/-- The hard-coded exclusivity groups (`4_Course_Match.py` lines 117-121,
identical in `5_v2_Course_Match.py` lines 124-128). -/
def exclusive_courses : List (List String) :=
  [["MGMT6110", "MGMT6120"],
   ["COURSE_X1", "COURSE_X2"]]

/-- The data the script assembles into the `LpProblem`: the course table
and the two scalar parameters.  The script performs no validation when
building the problem; construction is a total function of these. -/
structure Model where
  rows : List Row
  budget : ℚ
  credit_limit : ℚ
deriving Repr, DecidableEq

/-- Model construction (`4_Course_Match.py` lines 44-131): the problem is
built directly from the course table, the budget and the credit limit.
There is no validation step and no error path in the source: every input,
negative parameters included, yields a model carrying the given values
unchanged. -/
def buildModel (rows : List Row) (budget credit_limit : ℚ) : Model :=
  { rows := rows, budget := budget, credit_limit := credit_limit }

/-- A 0/1 assignment of the decision variables, keyed by `SectionID`
(`course_vars`, line 83): `true` means the binary variable has value 1. -/
def Assignment : Type := String → Bool

/-- The rows whose binary variable is 1 (the extraction at lines 137-145:
`selected_courses` then `isin` filtering). -/
def selectedRows (rows : List Row) (x : Assignment) : List Row :=
  rows.filter (fun r => x r.SectionID)

/-- `Σ Price` over a list of rows. -/
def totPrice (rows : List Row) : ℚ := (rows.map Row.Price).sum

/-- `Σ Credits` over a list of rows. -/
def totCredits (rows : List Row) : ℚ := (rows.map Row.Credits).sum

/-- `Σ Utility * Credits` (the weighted utility of line 153) over a list
of rows. -/
def totWeightedUtility (rows : List Row) : ℚ :=
  (rows.map (fun r => r.Utility * r.Credits)).sum

/-- The pairwise conflict constraints (lines 95-100): for every pair
`i < j` with `conflicts` true, `x_i + x_j ≤ 1`, i.e. not both selected.
`List.Pairwise` quantifies exactly over the index pairs `i < j`. -/
def ConflictConstraintsOk (rows : List Row) (x : Assignment) : Prop :=
  List.Pairwise
    (fun a b => conflicts a b = true → ¬(x a.SectionID = true ∧ x b.SectionID = true))
    rows

/-- Number of selected rows satisfying a predicate; `lpSum` of the
corresponding binary variables. -/
def countSelected (rows : List Row) (x : Assignment) (p : Row → Bool) : ℕ :=
  ((selectedRows rows x).filter p).length

/-- Feasibility of an assignment for the built model: the conjunction of
every constraint the script adds to `problem` (lines 91-131) —
budget, pairwise conflicts, at most one section per course name,
the hard-coded exclusivity groups, and the credit limit. -/
def feasible (m : Model) (x : Assignment) : Prop :=
  totPrice (selectedRows m.rows x) ≤ m.budget
    ∧ ConflictConstraintsOk m.rows x
    ∧ (∀ name ∈ m.rows.map Row.Section, countSelected m.rows x (fun r => r.Section == name) ≤ 1)
    ∧ (∀ g ∈ exclusive_courses, countSelected m.rows x (fun r => g.contains r.Section) ≤ 1)
    ∧ totCredits (selectedRows m.rows x) ≤ m.credit_limit

instance (m : Model) (x : Assignment) : Decidable (feasible m x) := by
  unfold feasible ConflictConstraintsOk countSelected
  infer_instance

/-- One row of the displayed result table.  Real sections carry their
`Utility` cell; the summary row stores the empty string there
(line 163), modelled as `none`. -/
structure OutRow where
  SectionID : String
  CourseName : String
  Instructor : String
  Days : String
  Time : String
  Price : ℚ
  Utility : Option ℚ
  Credits : ℚ
  WeightedUtility : ℚ
deriving Repr, DecidableEq

/-- A selected section as a result row, with its weighted utility column
`Utility * Credits` (line 153).  The source table has no course-name
column of its own, so the summary's `Course Name` field corresponds to no
datum of a real row; it is rendered blank here as well. -/
def toOutRow (r : Row) : OutRow :=
  { SectionID := r.SectionID
    CourseName := ""
    Instructor := r.Instructor
    Days := r.Days
    Time := r.Time
    Price := r.Price
    Utility := some r.Utility
    Credits := r.Credits
    WeightedUtility := r.Utility * r.Credits }

/-- `summary_data` (lines 156-166): the synthetic total row over the
selected sections.  `SectionID` is the sentinel `"Total"`; the
descriptive fields are blank; `Price`, `Credits` and `Weighted Utility`
are sums over the selected rows; the raw `Utility` sum is deliberately
not carried (the cell is blank). -/
def summary_data (selected : List Row) : OutRow :=
  { SectionID := "Total"
    CourseName := ""
    Instructor := ""
    Days := ""
    Time := ""
    Price := totPrice selected
    Utility := none
    Credits := totCredits selected
    WeightedUtility := totWeightedUtility selected }

/-- The result assembly (lines 144-169): the selected rows followed by
the single appended summary row. -/
def assembleRows (selected : List Row) : List OutRow :=
  selected.map toOutRow ++ [summary_data selected]

/-! ### Helper lemmas -/

theorem beq_str_comm (s t : String) : (s == t) = (t == s) := by
  by_cases h : s = t
  · subst h; rfl
  · have h2 : ¬ t = s := fun e => h e.symm
    simp [h, h2]

theorem bne_str_comm (s t : String) : (s != t) = (t != s) := by
  rw [bne, bne, beq_str_comm]

/-- A string whose character count is not 1 is never an element of a
Python character set. -/
theorem pyCharSet_contains_ne_one (s t : String) (h : t.data.length ≠ 1) :
    (pyCharSet s).contains t = false := by
  simp only [pyCharSet, List.contains, List.elem_eq_mem, List.mem_map,
    decide_eq_false_iff_not]
  rintro ⟨d, _, hdt⟩
  apply h
  rw [← hdt]
  rfl

/-- Membership of a one-character string in a Python character set is
character membership in the original string. -/
theorem pyCharSet_contains_char (s : String) (c : Char) :
    (pyCharSet s).contains (Char.toString c) = true ↔ c ∈ s.data := by
  simp only [pyCharSet, List.contains, List.elem_eq_mem, decide_eq_true_eq,
    List.mem_map]
  constructor
  · rintro ⟨d, hd, hdt⟩
    have hdata := congrArg String.data hdt
    simp only [show ∀ e : Char, (Char.toString e).data = [e] from fun _ => rfl] at hdata
    cases hdata
    exact hd
  · intro h
    exact ⟨c, h, rfl⟩

/-! ### Claims -/

/-- C3: the pairwise conflict predicate is symmetric: for every pair of
section records `a` and `b`, `conflicts a b = conflicts b a`. -/
theorem C3_conflicts_symm (course_a course_b : Row) :
    conflicts course_a course_b = conflicts course_b course_a := by
  unfold conflicts
  have hday : ∀ (ma wa mwa ta ra tra mb wb mwb tb rb trb : Bool),
      (mb && ma || (wb && wa) || (mwb && (ma || wa)) || (mwa && (mb || wb))
        || (tb && ta) || (rb && ra) || (trb && (ta || ra)) || (tra && (tb || rb)))
      = (ma && mb || (wa && wb) || (mwa && (mb || wb)) || (mwb && (ma || wa))
        || (ta && tb) || (ra && rb) || (tra && (tb || rb)) || (trb && (ta || ra))) := by
    decide
  simp only [bne_str_comm course_b.Time course_a.Time,
    bne_str_comm course_b.Term course_a.Term,
    Bool.or_comm
      (course_b.Term == "Full" && ["Q1", "Q2", "Q3", "Q4"].contains course_a.Term)
      (course_a.Term == "Full" && ["Q1", "Q2", "Q3", "Q4"].contains course_b.Term),
    hday ((pyCharSet course_a.Days).contains "M") ((pyCharSet course_a.Days).contains "W")
      ((pyCharSet course_a.Days).contains "MW") ((pyCharSet course_a.Days).contains "T")
      ((pyCharSet course_a.Days).contains "R") ((pyCharSet course_a.Days).contains "TR")
      ((pyCharSet course_b.Days).contains "M") ((pyCharSet course_b.Days).contains "W")
      ((pyCharSet course_b.Days).contains "MW") ((pyCharSet course_b.Days).contains "T")
      ((pyCharSet course_b.Days).contains "R") ((pyCharSet course_b.Days).contains "TR")]

/-- C10: `conflicts` reports a conflict only when the character sets of
the two `Days` strings intersect: whenever `conflicts a b = true` the two
strings share a character, and the branches testing the multi-character
tokens `"MW"` and `"TR"` against a character set can never fire, so
records sharing no day character never conflict even at equal times and
terms. -/
theorem C10_conflict_needs_shared_day (a b : Row) (h : conflicts a b = true) :
    (∃ c, c ∈ a.Days.data ∧ c ∈ b.Days.data)
      ∧ (∀ s : String,
          (pyCharSet s).contains "MW" = false ∧ (pyCharSet s).contains "TR" = false) := by
  refine ⟨?_, fun s => ⟨pyCharSet_contains_ne_one s "MW" (by decide),
    pyCharSet_contains_ne_one s "TR" (by decide)⟩⟩
  unfold conflicts at h
  rw [pyCharSet_contains_ne_one a.Days "MW" (by decide),
    pyCharSet_contains_ne_one b.Days "MW" (by decide),
    pyCharSet_contains_ne_one a.Days "TR" (by decide),
    pyCharSet_contains_ne_one b.Days "TR" (by decide)] at h
  simp only [Bool.false_and, Bool.or_false, Bool.false_or] at h
  split at h
  · exact absurd h (by simp)
  split at h
  · exact absurd h (by simp)
  simp only [Bool.or_eq_true, Bool.and_eq_true] at h
  rcases h with ((⟨h1, h2⟩ | ⟨h1, h2⟩) | ⟨h1, h2⟩) | ⟨h1, h2⟩
  · exact ⟨'M', (pyCharSet_contains_char a.Days 'M').mp h1,
      (pyCharSet_contains_char b.Days 'M').mp h2⟩
  · exact ⟨'W', (pyCharSet_contains_char a.Days 'W').mp h1,
      (pyCharSet_contains_char b.Days 'W').mp h2⟩
  · exact ⟨'T', (pyCharSet_contains_char a.Days 'T').mp h1,
      (pyCharSet_contains_char b.Days 'T').mp h2⟩
  · exact ⟨'R', (pyCharSet_contains_char a.Days 'R').mp h1,
      (pyCharSet_contains_char b.Days 'R').mp h2⟩

/-- Two concrete conflicting sections: same time slot, same term, both on
Monday/Wednesday. -/
def rowMWa : Row := ⟨"S1", "ACCT101", "A", "MW", "9am", "Full", 100, 1, 2⟩

/-- A second section at the same slot. -/
def rowMWb : Row := ⟨"S2", "FINC201", "B", "MW", "9am", "Full", 100, 1, 3⟩

/-- Witness for C10 at a concrete conflicting pair. -/
theorem C10_conflict_needs_shared_day_witness :
    conflicts rowMWa rowMWb = true
      ∧ ((∃ c, c ∈ rowMWa.Days.data ∧ c ∈ rowMWb.Days.data)
        ∧ (∀ s : String,
            (pyCharSet s).contains "MW" = false ∧ (pyCharSet s).contains "TR" = false)) :=
  ⟨by decide, C10_conflict_needs_shared_day rowMWa rowMWb (by decide)⟩

/-- A quarter code is not `"Full"`. -/
theorem mem_quarters_ne_full {s : String} (h : s ∈ ["Q1", "Q2", "Q3", "Q4"]) :
    (s == "Full") = false := by
  simp only [List.mem_cons, List.not_mem_nil, or_false] at h
  rcases h with h | h | h | h <;> subst h <;> rfl

theorem contains_of_mem_quarters {s : String} (h : s ∈ ["Q1", "Q2", "Q3", "Q4"]) :
    (["Q1", "Q2", "Q3", "Q4"].contains s) = true := by
  simpa [List.contains] using h

/-- A full-term section with an empty `Days` cell. -/
def rowFullEmpty : Row := ⟨"F1", "MKTG1", "A", "", "9am", "Full", 100, 1, 2⟩

/-- A Q1 section at the same time with the same empty `Days` cell. -/
def rowQ1Empty : Row := ⟨"F2", "MKTG2", "B", "", "9am", "Q1", 100, 1, 2⟩

/-- C4 counterexample: two records with identical `Time` and identical
`Days`, one `Term = "Full"` and the other `"Q1"`, for which `conflicts`
returns `false` — the claim's Full-vs-quarter half asserts `true`.  The
term check passes, but the `Days` strings contain none of the letters
`M`, `W`, `T`, `R`, so no day-overlap branch fires. -/
theorem C4_counterexample :
    rowFullEmpty.Time = rowQ1Empty.Time
      ∧ rowFullEmpty.Days = rowQ1Empty.Days
      ∧ rowFullEmpty.Term = "Full" ∧ rowQ1Empty.Term = "Q1"
      ∧ conflicts rowFullEmpty rowQ1Empty = false := by
  decide

/-- C4 (amended): for two records with identical `Time` and identical
`Days`: two distinct quarters never conflict; and a `"Full"` record
conflicts with a quarter record provided the shared `Days` string
contains at least one of the day letters `M`, `W`, `T`, `R` (without a
shared day letter `conflicts` returns `false`, see the counterexample). -/
theorem C4_terms_same_time_days (a b : Row)
    (ht : a.Time = b.Time) (hd : a.Days = b.Days) :
    (a.Term ∈ ["Q1", "Q2", "Q3", "Q4"] → b.Term ∈ ["Q1", "Q2", "Q3", "Q4"] →
      a.Term ≠ b.Term → conflicts a b = false)
    ∧ (a.Term = "Full" → b.Term ∈ ["Q1", "Q2", "Q3", "Q4"] →
      (∃ c ∈ a.Days.data, c ∈ (['M', 'W', 'T', 'R'] : List Char)) →
      conflicts a b = true) := by
  constructor
  · intro hqa hqb hne
    simp [conflicts, bne, ht, hne, mem_quarters_ne_full hqa, mem_quarters_ne_full hqb]
  · intro hfull hqb hc
    have h1 : (a.Time != b.Time) = false := by simp [bne, ht]
    have hfb : (a.Term == "Full") = true := by simp [hfull]
    have h2 : (a.Term != b.Term
        && !((a.Term == "Full" && ["Q1", "Q2", "Q3", "Q4"].contains b.Term)
          || (b.Term == "Full" && ["Q1", "Q2", "Q3", "Q4"].contains a.Term))) = false := by
      simp only [hfb, contains_of_mem_quarters hqb, Bool.true_and, Bool.true_or,
        Bool.not_true, Bool.and_false]
    obtain ⟨c, hcmem, hcin⟩ := hc
    have hbmem : c ∈ b.Days.data := hd ▸ hcmem
    unfold conflicts
    simp only [h1, h2, Bool.false_eq_true, if_false]
    simp only [List.mem_cons, List.not_mem_nil, or_false] at hcin
    rcases hcin with h | h | h | h <;> subst h
    · have ha : (pyCharSet a.Days).contains "M" = true :=
        (pyCharSet_contains_char a.Days 'M').mpr hcmem
      have hb : (pyCharSet b.Days).contains "M" = true :=
        (pyCharSet_contains_char b.Days 'M').mpr hbmem
      simp only [ha, hb, Bool.true_and, Bool.and_true, Bool.true_or, Bool.or_true]
    · have ha : (pyCharSet a.Days).contains "W" = true :=
        (pyCharSet_contains_char a.Days 'W').mpr hcmem
      have hb : (pyCharSet b.Days).contains "W" = true :=
        (pyCharSet_contains_char b.Days 'W').mpr hbmem
      simp only [ha, hb, Bool.true_and, Bool.and_true, Bool.true_or, Bool.or_true]
    · have ha : (pyCharSet a.Days).contains "T" = true :=
        (pyCharSet_contains_char a.Days 'T').mpr hcmem
      have hb : (pyCharSet b.Days).contains "T" = true :=
        (pyCharSet_contains_char b.Days 'T').mpr hbmem
      simp only [ha, hb, Bool.true_and, Bool.and_true, Bool.true_or, Bool.or_true]
    · have ha : (pyCharSet a.Days).contains "R" = true :=
        (pyCharSet_contains_char a.Days 'R').mpr hcmem
      have hb : (pyCharSet b.Days).contains "R" = true :=
        (pyCharSet_contains_char b.Days 'R').mpr hbmem
      simp only [ha, hb, Bool.true_and, Bool.and_true, Bool.true_or, Bool.or_true]

/-- A Q1 section on Monday/Wednesday at 9am. -/
def rowQ1MW : Row := ⟨"Q1S", "OPNS1", "C", "MW", "9am", "Q1", 100, 1, 1⟩

/-- A Q2 section on Monday/Wednesday at 9am. -/
def rowQ2MW : Row := ⟨"Q2S", "OPNS2", "D", "MW", "9am", "Q2", 100, 1, 1⟩

/-- A full-term section on Monday/Wednesday at 9am. -/
def rowFullMW : Row := ⟨"FS", "STRT1", "E", "MW", "9am", "Full", 100, 1, 1⟩

/-- Witness for the amended C4 at concrete inputs: `Q1` vs `Q2` gives no
conflict, `Full` vs `Q1` on shared days gives a conflict. -/
theorem C4_terms_same_time_days_witness :
    conflicts rowQ1MW rowQ2MW = false ∧ conflicts rowFullMW rowQ1MW = true := by
  constructor
  · exact (C4_terms_same_time_days rowQ1MW rowQ2MW rfl rfl).1
      (by decide) (by decide) (by decide)
  · exact (C4_terms_same_time_days rowFullMW rowQ1MW rfl rfl).2
      rfl (by decide) ⟨'M', by decide, by decide⟩

/-- C5: the grouping strategy is strictly less conservative than the
pairwise predicate: there are sections that `conflicts` declares mutually
exclusive (a `Full`-term and a quarter section at the same time and
days) whose group ids differ, so the grouped model does not enforce that
conflict. -/
theorem C5_grouping_misses_full_vs_quarter :
    conflicts rowFullMW rowQ1MW = true
      ∧ get_group_id rowFullMW ≠ get_group_id rowQ1MW := by
  decide

/-- C6 counterexample: model construction does not fail on negative
parameters — there is no validation step and no `ConfigurationError`
anywhere in the source.  Building with `budget = -1` and
`credit_limit = -1` succeeds and stores the negative values unchanged. -/
theorem C6_counterexample :
    buildModel [] (-1) (-1)
        = { rows := [], budget := -1, credit_limit := -1 }
      ∧ (buildModel [] (-1) (-1)).budget < 0
      ∧ (buildModel [] (-1) (-1)).credit_limit < 0 := by
  refine ⟨rfl, ?_, ?_⟩ <;> decide

/-- C6 (amended): the source performs no validation of `budget` or
`credit_limit`: construction is total and passes both values through
unclamped, for negative inputs as well.  No `ConfigurationError` exists.
Negative values cannot arise in the page itself only because the budget
is one of the two policy constants 4400 and 5500 and the credit-limit
widget is bounded below by 0. -/
theorem C6_no_validation (rows : List Row) (budget credit_limit : ℚ) :
    (buildModel rows budget credit_limit).budget = budget
      ∧ (buildModel rows budget credit_limit).credit_limit = credit_limit
      ∧ (buildModel rows budget credit_limit).rows = rows
      ∧ (∀ student_year : String,
          budgetOf student_year = 4400 ∨ budgetOf student_year = 5500) := by
  refine ⟨rfl, rfl, rfl, fun student_year => ?_⟩
  unfold budgetOf
  by_cases h : (student_year == "1st Year") = true
  · simp [h]
  · simp [h]

/-- C8: the result assembler appends exactly one synthetic summary row:
the output is the selected rows followed by one extra row whose
identifier is the sentinel `"Total"`, whose `Price`, `Credits` and
`Weighted Utility` fields are the sums over the selected sections, whose
descriptive fields are blank, and which carries no raw-utility sum;
for an empty selection the row is still appended with all three totals
zero. -/
theorem C8_summary_row (selected : List Row) :
    (assembleRows selected).length = selected.length + 1
      ∧ (assembleRows selected).getLast? = some (summary_data selected)
      ∧ (assembleRows selected).dropLast = selected.map toOutRow
      ∧ (summary_data selected).SectionID = "Total"
      ∧ (summary_data selected).CourseName = ""
      ∧ (summary_data selected).Instructor = ""
      ∧ (summary_data selected).Days = ""
      ∧ (summary_data selected).Time = ""
      ∧ (summary_data selected).Price = (selected.map Row.Price).sum
      ∧ (summary_data selected).Credits = (selected.map Row.Credits).sum
      ∧ (summary_data selected).WeightedUtility
          = (selected.map (fun r => r.Utility * r.Credits)).sum
      ∧ (summary_data selected).Utility = none
      ∧ (summary_data ([] : List Row)).Price = 0
      ∧ (summary_data ([] : List Row)).Credits = 0
      ∧ (summary_data ([] : List Row)).WeightedUtility = 0 := by
  refine ⟨?_, ?_, ?_, rfl, rfl, rfl, rfl, rfl, rfl, rfl, rfl, rfl, rfl, rfl, rfl⟩
  · simp [assembleRows]
  · exact List.getLast?_concat _
  · simp [assembleRows]

/-- The assignment that selects nothing. -/
def xNone : Assignment := fun _ => false

/-- The assignment that selects exactly the section with id `"S1"`. -/
def xS1 : Assignment := fun s => s == "S1"

/-- C1: for every feasible assignment of a model built with the budget
derived from the student year, the sum of `Price` over the selected
sections is at most that budget, and the budget constants are 4400 for
`"1st Year"` and 5500 for `"2nd Year"`. -/
theorem C1_budget_invariant (rows : List Row) (x : Assignment)
    (student_year : String) (credit_limit : ℚ)
    (h : feasible (buildModel rows (budgetOf student_year) credit_limit) x) :
    totPrice (selectedRows rows x) ≤ budgetOf student_year
      ∧ budgetOf "1st Year" = 4400 ∧ budgetOf "2nd Year" = 5500 :=
  ⟨h.1, by decide, by decide⟩

/-- Witness for C1 at a concrete model and feasible assignment. -/
theorem C1_budget_invariant_witness :
    feasible (buildModel [rowMWa, rowMWb] (budgetOf "1st Year") 4) xS1
      ∧ (totPrice (selectedRows [rowMWa, rowMWb] xS1) ≤ budgetOf "1st Year"
        ∧ budgetOf "1st Year" = 4400 ∧ budgetOf "2nd Year" = 5500) :=
  ⟨by with_unfolding_all decide,
    C1_budget_invariant [rowMWa, rowMWb] xS1 "1st Year" 4
      (by with_unfolding_all decide)⟩

/-- C2: in every feasible assignment, for every course name at most one
section bearing that name (in the `Section` column) is selected. -/
theorem C2_at_most_one_section_per_course (rows : List Row) (x : Assignment)
    (budget credit_limit : ℚ)
    (h : feasible (buildModel rows budget credit_limit) x) (name : String) :
    countSelected rows x (fun r => r.Section == name) ≤ 1 := by
  by_cases hn : name ∈ rows.map Row.Section
  · exact h.2.2.1 name hn
  · unfold countSelected
    have hnil : (selectedRows rows x).filter (fun r => r.Section == name) = [] := by
      apply List.filter_eq_nil_iff.mpr
      intro r hr heq
      exact hn (List.mem_map.mpr ⟨r, List.mem_of_mem_filter hr, by simpa using heq⟩)
    rw [hnil]
    simp

/-- Witness for C2 at a concrete model and feasible assignment. -/
theorem C2_at_most_one_section_per_course_witness :
    feasible (buildModel [rowMWa, rowMWb] 4400 4) xS1
      ∧ countSelected [rowMWa, rowMWb] xS1 (fun r => r.Section == "ACCT101") ≤ 1 :=
  ⟨by with_unfolding_all decide,
    C2_at_most_one_section_per_course [rowMWa, rowMWb] xS1 4400 4
      (by with_unfolding_all decide) "ACCT101"⟩

/-- A zero-credit, zero-price section. -/
def rowZeroCredit : Row := ⟨"Z1", "ZEROC", "Z", "MW", "9am", "Full", 0, 0, 5⟩

/-- The assignment that selects exactly the section with id `"Z1"`. -/
def xZ1 : Assignment := fun s => s == "Z1"

/-- C7 counterexample: with `credit_limit = 0`, the assignment selecting
a zero-credit section is feasible for the built model and the selection
is not empty, so a solve may return a non-empty selection.  The claim's
universal statement over all input section sets fails. -/
theorem C7_counterexample :
    feasible (buildModel [rowZeroCredit] 4400 0) xZ1
      ∧ selectedRows [rowZeroCredit] xZ1 = [rowZeroCredit] := by
  with_unfolding_all decide

/-- C7 (amended): when `credit_limit = 0` and every input section has
positive `Credits`, every feasible assignment selects no section.
Zero-credit sections are the only exception: they may still be selected
(see the counterexample). -/
theorem C7_zero_credit_limit_empty (rows : List Row) (x : Assignment)
    (budget : ℚ) (hpos : ∀ r ∈ rows, 0 < r.Credits)
    (h : feasible (buildModel rows budget 0) x) :
    selectedRows rows x = [] := by
  have hcred : totCredits (selectedRows rows x) ≤ 0 := h.2.2.2.2
  unfold totCredits at hcred
  by_contra hne
  have hposSel : ∀ q ∈ (selectedRows rows x).map Row.Credits, 0 < q := by
    intro q hq
    obtain ⟨r, hr, rfl⟩ := List.mem_map.mp hq
    exact hpos r (List.mem_of_mem_filter hr)
  have hmapne : (selectedRows rows x).map Row.Credits ≠ [] := by
    intro e
    exact hne (List.map_eq_nil_iff.mp e)
  exact absurd hcred (not_le.mpr (List.sum_pos _ hposSel hmapne))

/-- Witness for the amended C7 at a concrete model. -/
theorem C7_zero_credit_limit_empty_witness :
    (∀ r ∈ [rowMWa], 0 < r.Credits)
      ∧ feasible (buildModel [rowMWa] 4400 0) xNone
      ∧ selectedRows [rowMWa] xNone = [] :=
  ⟨by with_unfolding_all decide, by with_unfolding_all decide,
    C7_zero_credit_limit_empty [rowMWa] xNone 4400
      (by with_unfolding_all decide) (by with_unfolding_all decide)⟩

/-- C9: the exclusivity groups are the fixed compiled-in constant
`[[MGMT6110, MGMT6120], [COURSE_X1, COURSE_X2]]`; every feasible
assignment selects at most one section whose course name is `MGMT6110`
or `MGMT6120`; and a group matching no section constrains nothing: for
any section set containing no `COURSE_X1`/`COURSE_X2` section, the
group's selected count is 0 under every assignment, so the constraint is
vacuously satisfied rather than a failure. -/
theorem C9_exclusivity_groups (rows : List Row) (x : Assignment)
    (budget credit_limit : ℚ)
    (h : feasible (buildModel rows budget credit_limit) x) :
    exclusive_courses = [["MGMT6110", "MGMT6120"], ["COURSE_X1", "COURSE_X2"]]
      ∧ countSelected rows x (fun r => ["MGMT6110", "MGMT6120"].contains r.Section) ≤ 1
      ∧ (∀ (rows2 : List Row) (x2 : Assignment),
          (∀ r ∈ rows2, r.Section ≠ "COURSE_X1" ∧ r.Section ≠ "COURSE_X2") →
          countSelected rows2 x2
            (fun r => ["COURSE_X1", "COURSE_X2"].contains r.Section) = 0) := by
  refine ⟨rfl, h.2.2.2.1 _ (by decide), ?_⟩
  intro rows2 x2 habs
  unfold countSelected
  have hnil : (selectedRows rows2 x2).filter
      (fun r => ["COURSE_X1", "COURSE_X2"].contains r.Section) = [] := by
    apply List.filter_eq_nil_iff.mpr
    intro r hr hcont
    obtain ⟨h1, h2⟩ := habs r (List.mem_of_mem_filter hr)
    have hm : r.Section ∈ ["COURSE_X1", "COURSE_X2"] := by
      simpa [List.contains] using hcont
    simp only [List.mem_cons, List.not_mem_nil, or_false] at hm
    rcases hm with e | e
    · exact h1 e
    · exact h2 e
  rw [hnil]
  rfl

/-- A section of course `MGMT6110`. -/
def rowM6110 : Row := ⟨"M1", "MGMT6110", "P", "TR", "1pm", "Full", 2000, 1, 3⟩

/-- A section of course `MGMT6120` at a different time. -/
def rowM6120 : Row := ⟨"M2", "MGMT6120", "Q", "MW", "2pm", "Full", 2000, 1, 3⟩

/-- The assignment that selects exactly the section with id `"M1"`. -/
def xM1 : Assignment := fun s => s == "M1"

/-- Witness for C9 at a concrete model and feasible assignment. -/
theorem C9_exclusivity_groups_witness :
    feasible (buildModel [rowM6110, rowM6120] 4400 4) xM1
      ∧ (exclusive_courses = [["MGMT6110", "MGMT6120"], ["COURSE_X1", "COURSE_X2"]]
        ∧ countSelected [rowM6110, rowM6120] xM1
            (fun r => ["MGMT6110", "MGMT6120"].contains r.Section) ≤ 1
        ∧ (∀ (rows2 : List Row) (x2 : Assignment),
            (∀ r ∈ rows2, r.Section ≠ "COURSE_X1" ∧ r.Section ≠ "COURSE_X2") →
            countSelected rows2 x2
              (fun r => ["COURSE_X1", "COURSE_X2"].contains r.Section) = 0)) :=
  ⟨by with_unfolding_all decide,
    C9_exclusivity_groups [rowM6110, rowM6120] xM1 4400 4
      (by with_unfolding_all decide)⟩

end CourseMatch
